import Mathlib

/-!
Verification development for the quantumcat circuit layer.

Shallow embedding of `quantumcat/circuit/circuit.py` (the `QCircuit` facade)
and `quantumcat/gates/custom_gates/cirq/rccx_gate.py` (the custom RCCX gate
for the Cirq backend).

Modelling conventions:
* Python's mutable `QCircuit` object becomes an explicit `Circuit` record;
  every method is a function from the old record to a result carrying the new
  record.
* A Python exception becomes an explicit `Except` error value.  Because the
  Python object keeps any mutations made before a `raise`, a method result
  also carries the object state reached when the exception left the method.
* Python ints are `Int` (they are unbounded and may be negative); float gate
  parameters are modelled as `Rat` values that are only carried, never
  computed with.
* Modules of the repository that are not under `src/` (`quantumcat.utils`,
  `quantumcat.circuit.convert`, `quantumcat.circuit.execute_circuit`,
  `quantumcat.exceptions`) are modelled from the spec; each such definition
  says so in its doc comment.
-/

namespace QC

/-- Modelled from the spec: the `quantumcat.utils.providers` module is not
under `src/`.  Spec section 2 and the source's dispatch sites name five
backend families: IBM (Qiskit), Google (Cirq), Microsoft (Q#), Amazon
(Braket) and IonQ. -/
inductive Provider where
  | ibm
  | google
  | microsoft
  | amazon
  | ionq
deriving DecidableEq, Repr

/-- Modelled from the spec: `providers.DEFAULT_PROVIDER` (module missing from
`src/`).  The concrete choice is immaterial to every claim. -/
def DEFAULT_PROVIDER : Provider := Provider.google

/-- A numeric gate parameter (theta/phi/lam/gamma).  Python floats are
modelled as rationals; the circuit layer only carries them. -/
abbrev Angle := Rat

/-- Opaque API credential object; the circuit layer only passes it through. -/
abbrev Api := String

/-- Modelled from the code's usage sites: `quantumcat.circuit.op_type.OpType`
is not under `src/`; it is the closed enumeration of operation kinds that
`circuit.py` appends. -/
inductive OpType where
  | x_gate | y_gate | z_gate | h_gate | cx_gate | cz_gate | ccx_gate
  | ry_gate | ryy_gate | rzz_gate | rzx_gate | rz_gate
  | s_gate | sdg_gate | swap_gate | iswap_gate | sx_gate | sxd_gate
  | t_gate | td_gate | u_gate | u1_gate | u2_gate | u3_gate
  | cy_gate | i_gate | rccx_gate | rc3x_gate | rxx_gate | rx_gate
  | r_gate | p_gate | c3x_gate | c3sx_gate | c4x_gate | dcx_gate
  | ch_gate | csx_gate | cswap_gate | cphase_gate | crx_gate | cry_gate
  | crz_gate | cu_gate | cu1_gate | cu3_gate
  | mcx_gate | mcxgc_gate | mcxvchain_gate | mcxrec_gate | mcp_gate | mct_gate
  | measure | measure_all
deriving DecidableEq, Repr

/-- A value stored under the `PARAMS` key of an operation dictionary. -/
inductive PVal where
  /-- an integer parameter, e.g. `len(control_qubits)` -/
  | num (k : Nat)
  /-- a numeric gate parameter -/
  | ang (x : Angle)
  /-- `mcxvchain_gate`'s `dirty_ancilla` argument, carried opaquely -/
  | dirty (d : Bool)
deriving DecidableEq, Repr

/-- The value stored under the `OpType` key of an operation dictionary: the
source uses a flat list of qubit indices for some kinds, a list of
singleton lists for others, the heterogeneous
`[control_qubits, [target_qubit], ancilla_qubits, mode]` list for `mct_gate`,
and the `OpType.measure_all` sentinel for `measure_all`. -/
inductive OpVal where
  | flat (qs : List Int)
  | groups (gs : List (List Int))
  | mct (controls : List Int) (target : List Int)
      (ancillas : Option (List Int)) (mode : String)
  | sentinel
deriving DecidableEq, Repr

/-- One appended operation: the dictionary
`{OpType.<kind>: <value>, constants.PARAMS: <params>}`; `params = none` when
the dictionary has no `PARAMS` key. -/
structure Operation where
  ty : OpType
  val : OpVal
  params : Option (List PVal)
deriving DecidableEq, Repr

/-- A backend-native circuit produced by one of the translators.  Modelled
from the spec (section 4.2): a translator is a pure function of the
operation sequence and the qubit count, one per backend family. -/
inductive Converted where
  | qiskit (operations : List Operation) (qubits : Int)
  | cirq (operations : List Operation) (qubits : Int)
  | qsharp (operations : List Operation) (qubits : Int)
  | braket (operations : List Operation) (qubits : Int)
deriving DecidableEq, Repr

/-- Modelled from the spec: error messages of `quantumcat.utils.ErrorMessages`
(module missing from `src/`), named after the source's uses. -/
inductive ErrMsg where
  | qubitOutOfBound
  | ionqApiDetailsNotProvided
deriving DecidableEq, Repr

/-- The exceptions the embedded code can raise.  `CircuitError` and
`APIDetailsNotFoundError` come from `quantumcat.exceptions` (modelled from
the spec, module missing from `src/`); `keyError` is Python's built-in
`KeyError` raised by a failing dictionary lookup. -/
inductive QError where
  | circuitError (msg : ErrMsg)
  | apiDetailsNotFound (msg : ErrMsg)
  | keyError (key : String)
deriving DecidableEq, Repr

/-- The state of a `QCircuit` object: `__init__` stores the qubit count, an
empty operation list, no converted circuit and the provider. -/
structure Circuit where
  qubits : Int
  operations : List Operation
  converted_q_circuit : Option Converted
  provider : Provider
deriving DecidableEq, Repr

/-- `QCircuit(qubits)` with the default provider argument. -/
def empty_circuit (qubits : Int) : Circuit :=
  ⟨qubits, [], none, DEFAULT_PROVIDER⟩

/-- What a gate/measurement method returns on normal exit: `self`
(a trailing `return self`) or Python's implicit `None`. -/
inductive Ret where
  | self
  | none
deriving DecidableEq, Repr

instance {ε α : Type} [DecidableEq ε] [DecidableEq α] : DecidableEq (Except ε α) :=
  fun a b =>
    match a, b with
    | Except.error e, Except.error e' =>
      if h : e = e' then isTrue (by rw [h])
      else isFalse (by intro hh; cases hh; exact h rfl)
    | Except.ok x, Except.ok y =>
      if h : x = y then isTrue (by rw [h])
      else isFalse (by intro hh; cases hh; exact h rfl)
    | Except.error _, Except.ok _ => isFalse (by intro hh; cases hh)
    | Except.ok _, Except.error _ => isFalse (by intro hh; cases hh)

/-- Result of running one method on a circuit: the circuit state when the
method left (also on an exception, since the Python object keeps mutations
made before the `raise`), and either the raised error or the return value. -/
structure MRes where
  circ : Circuit
  out : Except QError Ret
deriving DecidableEq, Repr

/-- `QCircuit.check_qubit_boundary`: raises `CircuitError` when
`qubit > self.qubits - 1`.  (Note the source has no lower-bound check.) -/
def check_qubit_boundary (c : Circuit) (qubit : Int) : Option QError :=
  if qubit > c.qubits - 1 then some (QError.circuitError ErrMsg.qubitOutOfBound)
  else none

/-- Sequential `check_qubit_boundary` calls on a list of qubit arguments,
stopping at the first raised error; the checks do not mutate the circuit. -/
def checkMany (c : Circuit) (qs : List Int) : Option QError :=
  match qs with
  | [] => none
  | q :: rest =>
    match check_qubit_boundary c q with
    | some e => some e
    | none => checkMany c rest

/-- `self.operations.append(op)`. -/
def appendOp (c : Circuit) (op : Operation) : Circuit :=
  { c with operations := c.operations ++ [op] }

/-- The shape shared by every gate/measurement method of the source: run the
method's `check_qubit_boundary` calls in order (an error propagates and
nothing is appended), then append the method's one operation and return `r`
(`Ret.self` for a trailing `return self`, `Ret.none` for no return). -/
def guarded (c : Circuit) (checks : List Int) (op : Operation) (r : Ret) : MRes :=
  match checkMany c checks with
  | some e => ⟨c, Except.error e⟩
  | none => ⟨appendOp c op, Except.ok r⟩

def x_gate (c : Circuit) (qubit : Int) : MRes :=
  guarded c [qubit] ⟨OpType.x_gate, OpVal.flat [qubit], none⟩ Ret.self

def y_gate (c : Circuit) (qubit : Int) : MRes :=
  guarded c [qubit] ⟨OpType.y_gate, OpVal.flat [qubit], none⟩ Ret.self

def z_gate (c : Circuit) (qubit : Int) : MRes :=
  guarded c [qubit] ⟨OpType.z_gate, OpVal.flat [qubit], none⟩ Ret.self

def h_gate (c : Circuit) (qubit : Int) : MRes :=
  guarded c [qubit] ⟨OpType.h_gate, OpVal.flat [qubit], none⟩ Ret.self

def cx_gate (c : Circuit) (control_qubit target_qubit : Int) : MRes :=
  guarded c [control_qubit, target_qubit]
    ⟨OpType.cx_gate, OpVal.groups [[control_qubit], [target_qubit]], none⟩ Ret.self

/-- `QCircuit.cz_gate`: the source checks only `control_qubit`; there is no
`check_qubit_boundary(target_qubit)` call. -/
def cz_gate (c : Circuit) (control_qubit target_qubit : Int) : MRes :=
  guarded c [control_qubit]
    ⟨OpType.cz_gate, OpVal.groups [[control_qubit], [target_qubit]], none⟩ Ret.self

def ccx_gate (c : Circuit) (control_qubit1 control_qubit2 target_qubit : Int) : MRes :=
  guarded c [control_qubit1, control_qubit2, target_qubit]
    ⟨OpType.ccx_gate,
      OpVal.groups [[control_qubit1], [control_qubit2], [target_qubit]], none⟩ Ret.self

def ry_gate (c : Circuit) (theta : Angle) (qubit : Int) : MRes :=
  guarded c [qubit] ⟨OpType.ry_gate, OpVal.flat [qubit], some [PVal.ang theta]⟩ Ret.self

def ryy_gate (c : Circuit) (theta : Angle) (qubit1 qubit2 : Int) : MRes :=
  guarded c [qubit1, qubit2]
    ⟨OpType.ryy_gate, OpVal.groups [[qubit1], [qubit2]], some [PVal.ang theta]⟩ Ret.self

def rzz_gate (c : Circuit) (theta : Angle) (qubit1 qubit2 : Int) : MRes :=
  guarded c [qubit1, qubit2]
    ⟨OpType.rzz_gate, OpVal.groups [[qubit1], [qubit2]], some [PVal.ang theta]⟩ Ret.self

def rzx_gate (c : Circuit) (theta : Angle) (qubit1 qubit2 : Int) : MRes :=
  guarded c [qubit1, qubit2]
    ⟨OpType.rzx_gate, OpVal.groups [[qubit1], [qubit2]], some [PVal.ang theta]⟩ Ret.self

def rz_gate (c : Circuit) (phi : Angle) (qubit : Int) : MRes :=
  guarded c [qubit] ⟨OpType.rz_gate, OpVal.flat [qubit], some [PVal.ang phi]⟩ Ret.self

def s_gate (c : Circuit) (qubit : Int) : MRes :=
  guarded c [qubit] ⟨OpType.s_gate, OpVal.flat [qubit], none⟩ Ret.self

def sdg_gate (c : Circuit) (qubit : Int) : MRes :=
  guarded c [qubit] ⟨OpType.sdg_gate, OpVal.flat [qubit], none⟩ Ret.self

def swap_gate (c : Circuit) (qubit1 qubit2 : Int) : MRes :=
  guarded c [qubit1, qubit2]
    ⟨OpType.swap_gate, OpVal.groups [[qubit1], [qubit2]], none⟩ Ret.self

def iswap_gate (c : Circuit) (qubit_a qubit_b : Int) : MRes :=
  guarded c [qubit_a, qubit_b]
    ⟨OpType.iswap_gate, OpVal.groups [[qubit_a], [qubit_b]], none⟩ Ret.self

def sx_gate (c : Circuit) (qubit : Int) : MRes :=
  guarded c [qubit] ⟨OpType.sx_gate, OpVal.flat [qubit], none⟩ Ret.self

def sxd_gate (c : Circuit) (qubit : Int) : MRes :=
  guarded c [qubit] ⟨OpType.sxd_gate, OpVal.flat [qubit], none⟩ Ret.self

def t_gate (c : Circuit) (qubit : Int) : MRes :=
  guarded c [qubit] ⟨OpType.t_gate, OpVal.flat [qubit], none⟩ Ret.self

def td_gate (c : Circuit) (qubit : Int) : MRes :=
  guarded c [qubit] ⟨OpType.td_gate, OpVal.flat [qubit], none⟩ Ret.self

def u_gate (c : Circuit) (theta phi lam : Angle) (qubit : Int) : MRes :=
  guarded c [qubit]
    ⟨OpType.u_gate, OpVal.flat [qubit],
      some [PVal.ang theta, PVal.ang phi, PVal.ang lam]⟩ Ret.self

def u1_gate (c : Circuit) (theta : Angle) (qubit : Int) : MRes :=
  guarded c [qubit] ⟨OpType.u1_gate, OpVal.flat [qubit], some [PVal.ang theta]⟩ Ret.self

def u2_gate (c : Circuit) (phi lam : Angle) (qubit : Int) : MRes :=
  guarded c [qubit]
    ⟨OpType.u2_gate, OpVal.flat [qubit], some [PVal.ang phi, PVal.ang lam]⟩ Ret.self

def u3_gate (c : Circuit) (theta phi lam : Angle) (qubit : Int) : MRes :=
  guarded c [qubit]
    ⟨OpType.u3_gate, OpVal.flat [qubit],
      some [PVal.ang theta, PVal.ang phi, PVal.ang lam]⟩ Ret.self

/-- `QCircuit.cy_gate`: the source checks only `control_qubit`. -/
def cy_gate (c : Circuit) (control_qubit target_qubit : Int) : MRes :=
  guarded c [control_qubit]
    ⟨OpType.cy_gate, OpVal.groups [[control_qubit], [target_qubit]], none⟩ Ret.self

def i_gate (c : Circuit) (qubit : Int) : MRes :=
  guarded c [qubit] ⟨OpType.i_gate, OpVal.flat [qubit], none⟩ Ret.self

def rccx_gate (c : Circuit) (control_qubit1 control_qubit2 target_qubit : Int) : MRes :=
  guarded c [control_qubit1, control_qubit2, target_qubit]
    ⟨OpType.rccx_gate,
      OpVal.groups [[control_qubit1], [control_qubit2], [target_qubit]], none⟩ Ret.self

def rc3x_gate (c : Circuit)
    (control_qubit1 control_qubit2 control_qubit3 target_qubit : Int) : MRes :=
  guarded c [control_qubit1, control_qubit2, control_qubit3, target_qubit]
    ⟨OpType.rc3x_gate,
      OpVal.groups [[control_qubit1], [control_qubit2], [control_qubit3], [target_qubit]],
      none⟩ Ret.self

def rxx_gate (c : Circuit) (theta : Angle) (qubit1 qubit2 : Int) : MRes :=
  guarded c [qubit1, qubit2]
    ⟨OpType.rxx_gate, OpVal.groups [[qubit1], [qubit2]], some [PVal.ang theta]⟩ Ret.self

def rx_gate (c : Circuit) (theta : Angle) (qubit : Int) : MRes :=
  guarded c [qubit] ⟨OpType.rx_gate, OpVal.flat [qubit], some [PVal.ang theta]⟩ Ret.self

def r_gate (c : Circuit) (theta phi : Angle) (qubit : Int) : MRes :=
  guarded c [qubit]
    ⟨OpType.r_gate, OpVal.flat [qubit], some [PVal.ang theta, PVal.ang phi]⟩ Ret.self

def p_gate (c : Circuit) (theta : Angle) (qubit : Int) : MRes :=
  guarded c [qubit] ⟨OpType.p_gate, OpVal.flat [qubit], some [PVal.ang theta]⟩ Ret.self

def c3x_gate (c : Circuit)
    (control_qubit1 control_qubit2 control_qubit3 target_qubit : Int) : MRes :=
  guarded c [control_qubit1, control_qubit2, control_qubit3, target_qubit]
    ⟨OpType.c3x_gate,
      OpVal.groups [[control_qubit1], [control_qubit2], [control_qubit3], [target_qubit]],
      none⟩ Ret.self

def c3sx_gate (c : Circuit)
    (control_qubit1 control_qubit2 control_qubit3 target_qubit : Int) : MRes :=
  guarded c [control_qubit1, control_qubit2, control_qubit3, target_qubit]
    ⟨OpType.c3sx_gate,
      OpVal.groups [[control_qubit1], [control_qubit2], [control_qubit3], [target_qubit]],
      none⟩ Ret.self

def c4x_gate (c : Circuit)
    (control_qubit1 control_qubit2 control_qubit3 control_qubit4 target_qubit : Int) :
    MRes :=
  guarded c [control_qubit1, control_qubit2, control_qubit3, control_qubit4, target_qubit]
    ⟨OpType.c4x_gate,
      OpVal.groups
        [[control_qubit1], [control_qubit2], [control_qubit3], [control_qubit4],
          [target_qubit]],
      none⟩ Ret.self

def dcx_gate (c : Circuit) (control_qubit1 control_qubit2 : Int) : MRes :=
  guarded c [control_qubit1, control_qubit2]
    ⟨OpType.dcx_gate, OpVal.groups [[control_qubit1], [control_qubit2]], none⟩ Ret.self

def ch_gate (c : Circuit) (control_qubit target_qubit : Int) : MRes :=
  guarded c [control_qubit, target_qubit]
    ⟨OpType.ch_gate, OpVal.groups [[control_qubit], [target_qubit]], none⟩ Ret.self

def csx_gate (c : Circuit) (control_qubit target_qubit : Int) : MRes :=
  guarded c [control_qubit, target_qubit]
    ⟨OpType.csx_gate, OpVal.groups [[control_qubit], [target_qubit]], none⟩ Ret.self

def cswap_gate (c : Circuit) (control_qubit target_qubit1 target_qubit2 : Int) : MRes :=
  guarded c [control_qubit, target_qubit1, target_qubit2]
    ⟨OpType.cswap_gate,
      OpVal.groups [[control_qubit], [target_qubit1], [target_qubit2]], none⟩ Ret.self

def cphase_gate (c : Circuit) (theta : Angle) (control_qubit target_qubit : Int) : MRes :=
  guarded c [control_qubit, target_qubit]
    ⟨OpType.cphase_gate, OpVal.groups [[control_qubit], [target_qubit]],
      some [PVal.ang theta]⟩ Ret.self

def crx_gate (c : Circuit) (theta : Angle) (control_qubit target_qubit : Int) : MRes :=
  guarded c [control_qubit, target_qubit]
    ⟨OpType.crx_gate, OpVal.groups [[control_qubit], [target_qubit]],
      some [PVal.ang theta]⟩ Ret.self

def cry_gate (c : Circuit) (theta : Angle) (control_qubit target_qubit : Int) : MRes :=
  guarded c [control_qubit, target_qubit]
    ⟨OpType.cry_gate, OpVal.groups [[control_qubit], [target_qubit]],
      some [PVal.ang theta]⟩ Ret.self

def crz_gate (c : Circuit) (theta : Angle) (control_qubit target_qubit : Int) : MRes :=
  guarded c [control_qubit, target_qubit]
    ⟨OpType.crz_gate, OpVal.groups [[control_qubit], [target_qubit]],
      some [PVal.ang theta]⟩ Ret.self

def cu_gate (c : Circuit) (theta phi lam gamma : Angle)
    (control_qubit target_qubit : Int) : MRes :=
  guarded c [control_qubit, target_qubit]
    ⟨OpType.cu_gate, OpVal.groups [[control_qubit], [target_qubit]],
      some [PVal.ang theta, PVal.ang phi, PVal.ang lam, PVal.ang gamma]⟩ Ret.self

def cu1_gate (c : Circuit) (theta : Angle) (control_qubit target_qubit : Int) : MRes :=
  guarded c [control_qubit, target_qubit]
    ⟨OpType.cu1_gate, OpVal.groups [[control_qubit], [target_qubit]],
      some [PVal.ang theta]⟩ Ret.self

def cu3_gate (c : Circuit) (theta phi lam : Angle)
    (control_qubit target_qubit : Int) : MRes :=
  guarded c [control_qubit, target_qubit]
    ⟨OpType.cu3_gate, OpVal.groups [[control_qubit], [target_qubit]],
      some [PVal.ang theta, PVal.ang phi, PVal.ang lam]⟩ Ret.self

/-- `QCircuit.mcx_gate`: checks the target, then every control (the
`ancilla_qubits` are not checked); appends
`control_qubits[:] + [target_qubit] + ancilla_qubits[:]` with
`PARAMS = [len(control_qubits)]`.  The `mode` argument is accepted but does
not occur in the appended dictionary. -/
def mcx_gate (c : Circuit) (control_qubits : List Int) (target_qubit : Int)
    (ancilla_qubits : List Int) (mode : String) : MRes :=
  guarded c (target_qubit :: control_qubits)
    ⟨OpType.mcx_gate, OpVal.flat (control_qubits ++ [target_qubit] ++ ancilla_qubits),
      some [PVal.num control_qubits.length]⟩ Ret.self

def mcxgc_gate (c : Circuit) (control_qubits : List Int) (target_qubit : Int) : MRes :=
  guarded c (target_qubit :: control_qubits)
    ⟨OpType.mcxgc_gate, OpVal.flat (control_qubits ++ [target_qubit]),
      some [PVal.num control_qubits.length]⟩ Ret.self

/-- `QCircuit.mcxvchain_gate`: `PARAMS = [len(control_qubits), dirty_ancilla]`,
the `dirty_ancilla` argument stored as passed. -/
def mcxvchain_gate (c : Circuit) (control_qubits : List Int) (target_qubit : Int)
    (dirty_ancilla : Bool) : MRes :=
  guarded c (target_qubit :: control_qubits)
    ⟨OpType.mcxvchain_gate, OpVal.flat (control_qubits ++ [target_qubit]),
      some [PVal.num control_qubits.length, PVal.dirty dirty_ancilla]⟩ Ret.self

def mcxrec_gate (c : Circuit) (control_qubits : List Int) (target_qubit : Int) : MRes :=
  guarded c (target_qubit :: control_qubits)
    ⟨OpType.mcxrec_gate, OpVal.flat (control_qubits ++ [target_qubit]),
      some [PVal.num control_qubits.length]⟩ Ret.self

def mcp_gate (c : Circuit) (lam : Angle) (control_qubits : List Int)
    (target_qubit : Int) : MRes :=
  guarded c (target_qubit :: control_qubits)
    ⟨OpType.mcp_gate, OpVal.flat (control_qubits ++ [target_qubit]),
      some [PVal.ang lam, PVal.num control_qubits.length]⟩ Ret.self

/-- `QCircuit.mct_gate`: the source checks only the target qubit (the control
check is commented out in the source); the appended list is
`[control_qubits, [target_qubit], ancilla_qubits, mode]`. -/
def mct_gate (c : Circuit) (control_qubits : List Int) (target_qubit : Int)
    (ancilla_qubits : Option (List Int)) (mode : String) : MRes :=
  guarded c [target_qubit]
    ⟨OpType.mct_gate, OpVal.mct control_qubits [target_qubit] ancilla_qubits mode,
      none⟩ Ret.self

/-- `QCircuit.measure`: checks the qubit, appends, and — unlike the gate
methods — has no `return self`, so it returns `None`. -/
def measure (c : Circuit) (qubit : Int) : MRes :=
  guarded c [qubit] ⟨OpType.measure, OpVal.flat [qubit], none⟩ Ret.none

/-- `QCircuit.measure_all`: appends the `measure_all` sentinel with no
boundary check, and has no `return self`, so it returns `None`. -/
def measure_all (c : Circuit) : MRes :=
  ⟨appendOp c ⟨OpType.measure_all, OpVal.sentinel, none⟩, Except.ok Ret.none⟩

/-- `QCircuit.get_operations`. -/
def get_operations (c : Circuit) : List Operation := c.operations

/-- Modelled from the spec: `constants.DEFAULT_SIMULATOR`
(`quantumcat.utils.constants` is not under `src/`); the concrete value is
immaterial to every claim. -/
def DEFAULT_SIMULATOR : String := "default_simulator"

/-- Modelled from the spec: `constants.DEFAULT_REPETITIONS`; the concrete
value is immaterial to every claim. -/
def DEFAULT_REPETITIONS : Int := 1024

/-- Modelled from the spec: `convert.to_qiskit`
(`quantumcat/circuit/convert.py` is not under `src/`).  Spec section 4.2: a
translator is a pure function of the operation sequence and the qubit
count. -/
def to_qiskit (c : Circuit) (qubits : Int) : Converted :=
  Converted.qiskit c.operations qubits

/-- Modelled from the spec: `convert.to_cirq`, see `to_qiskit`. -/
def to_cirq (c : Circuit) (qubits : Int) : Converted :=
  Converted.cirq c.operations qubits

/-- Modelled from the spec: `convert.to_q_sharp`, see `to_qiskit`. -/
def to_q_sharp (c : Circuit) (qubits : Int) : Converted :=
  Converted.qsharp c.operations qubits

/-- Modelled from the spec: `convert.to_braket`, see `to_qiskit`. -/
def to_braket (c : Circuit) (qubits : Int) : Converted :=
  Converted.braket c.operations qubits

/-- `QCircuit.convert_circuit`: dispatches on `self.provider`; the initial
`None` survives only if no branch matches (impossible for the closed
provider enumeration). -/
def convert_circuit (c : Circuit) : Option Converted :=
  if c.provider = Provider.ibm then some (to_qiskit c c.qubits)
  else if c.provider = Provider.google then some (to_cirq c c.qubits)
  else if c.provider = Provider.ionq then some (to_cirq c c.qubits)
  else if c.provider = Provider.microsoft then some (to_q_sharp c c.qubits)
  else if c.provider = Provider.amazon then some (to_braket c c.qubits)
  else none

/-- `QCircuit.check_and_convert`: when the cached converted circuit is absent
or the stored provider differs from the requested one, store the requested
provider, translate and replace the cache.  The returned Boolean reports
whether `convert_circuit` was called (the spec's observable translation
counter increments exactly when it is `true`). -/
def check_and_convert (c : Circuit) (provider : Provider) : Circuit × Bool :=
  if c.converted_q_circuit = none ∨ c.provider ≠ provider then
    let c' := { c with provider := provider }
    ({ c' with converted_q_circuit := convert_circuit c' }, true)
  else (c, false)

/-- `QCircuit.draw_circuit`: calls `check_and_convert` and prints; only the
state effect is modelled. -/
def draw_circuit (c : Circuit) (provider : Provider) : Circuit :=
  (check_and_convert c provider).1

/-- What one of the executor adapters of
`quantumcat/circuit/execute_circuit.py` (not under `src/`) was invoked with.
Modelled from the spec: the dispatcher hands the translated circuit and the
request settings to the backend adapter; the record keeps those arguments,
in the source's call order. -/
inductive ExecOutcome where
  | qiskit (circ : Option Converted) (simulator_name : String) (repetitions : Int)
      (api : Option Api) (device : Option String)
  | cirq (circ : Option Converted) (simulator_name : String) (repetitions : Int)
      (api : Option Api) (operations : List Operation)
  | braket (circ : Option Converted) (simulator_name : String) (repetitions : Int)
      (device : Option String) (bucket : Option String) (directory : Option String)
      (poll_timeout_seconds : Int) (poll_interval_seconds : Int)
  | ionq (circ : Option Converted) (default_target : String) (repetitions : Int)
      (api : Option Api) (operations : List Operation)
deriving DecidableEq, Repr

/-- `QCircuit.execute`: runs `check_and_convert`, then dispatches on
`self.provider`.  The IonQ branch raises `APIDetailsNotFoundError` when
`api` is `None`, before calling the executor.  A provider matching no branch
(Microsoft) falls through the `if`/`elif` chain, so the method returns
Python's implicit `None`: the result is `Except.ok none`. -/
def execute (c : Circuit) (provider : Provider) (simulator_name : String)
    (repetitions : Int) (api : Option Api) (device : Option String)
    (default_target : String) (bucket : Option String)
    (poll_timeout_seconds poll_interval_seconds : Int)
    (directory : Option String) : Circuit × Except QError (Option ExecOutcome) :=
  let c' := (check_and_convert c provider).1
  if c'.provider = Provider.ibm then
    (c', Except.ok (some (ExecOutcome.qiskit c'.converted_q_circuit simulator_name
      repetitions api device)))
  else if c'.provider = Provider.google then
    (c', Except.ok (some (ExecOutcome.cirq c'.converted_q_circuit simulator_name
      repetitions api (get_operations c'))))
  else if c'.provider = Provider.amazon then
    (c', Except.ok (some (ExecOutcome.braket c'.converted_q_circuit simulator_name
      repetitions device bucket directory poll_timeout_seconds poll_interval_seconds)))
  else if c'.provider = Provider.ionq then
    if api = none then
      (c', Except.error (QError.apiDetailsNotFound ErrMsg.ionqApiDetailsNotProvided))
    else
      (c', Except.ok (some (ExecOutcome.ionq c'.converted_q_circuit default_target
        repetitions api (get_operations c'))))
  else (c', Except.ok none)

/-- One entry of the explicit `providers_list` given to
`QCircuit.compare_results`: a Python dictionary whose recognized keys may
each be absent (`none`). -/
structure ProviderConfig where
  provider : Option Provider
  api : Option Api
  device : Option String
  bucket : Option String
  directory : Option String
  simulator : Option String
  repetitions : Option Int
  poll_timeout_seconds : Option Int
  poll_interval_seconds : Option Int
deriving DecidableEq, Repr

/-- The explicit-list loop of `QCircuit.compare_results`: for each record,
`provider_json['provider']` is read without a default (a missing key raises
`KeyError`); every other recognized key is defaulted independently; then
`execute` is called with the record's settings and its result is stored
under the record's provider.  An exception from any iteration propagates:
nothing is caught. -/
def compare_go (c : Circuit) (configs : List ProviderConfig)
    (acc : List (Provider × Option ExecOutcome)) :
    Circuit × Except QError (List (Provider × Option ExecOutcome)) :=
  match configs with
  | [] => (c, Except.ok acc)
  | cfg :: rest =>
    match cfg.provider with
    | none => (c, Except.error (QError.keyError "provider"))
    | some p =>
      let simulator := cfg.simulator.getD DEFAULT_SIMULATOR
      let reps := cfg.repetitions.getD DEFAULT_REPETITIONS
      let pts := cfg.poll_timeout_seconds.getD 100
      let pis := cfg.poll_interval_seconds.getD 10
      match execute c p simulator reps cfg.api cfg.device "simulator" cfg.bucket
          pts pis cfg.directory with
      | (c', Except.error e) => (c', Except.error e)
      | (c', Except.ok res) => compare_go c' rest (acc ++ [(p, res)])

/-- The default-list loop of `QCircuit.compare_results`: each provider is
executed with `execute`'s default arguments and the given repetitions; an
exception propagates. -/
def compare_default (c : Circuit) (ps : List Provider) (repetitions : Int)
    (acc : List (Provider × Option ExecOutcome)) :
    Circuit × Except QError (List (Provider × Option ExecOutcome)) :=
  match ps with
  | [] => (c, Except.ok acc)
  | p :: rest =>
    match execute c p DEFAULT_SIMULATOR repetitions none none "simulator" none
        100 10 none with
    | (c', Except.error e) => (c', Except.error e)
    | (c', Except.ok res) => compare_default c' rest repetitions (acc ++ [(p, res)])

/-- `QCircuit.compare_results`: with no list, runs the default provider list
(Google, IBM, Amazon); with an explicit list, runs the per-record loop.
The output dictionary is modelled as the association list built in loop
order. -/
def compare_results (c : Circuit) (providers_list : Option (List ProviderConfig))
    (repetitions : Int) :
    Circuit × Except QError (List (Provider × Option ExecOutcome)) :=
  match providers_list with
  | none =>
    compare_default c [Provider.google, Provider.ibm, Provider.amazon] repetitions []
  | some l => compare_go c l []

/-- A Gaussian integer `re + im*i`; every entry of the RCCX matrix lies in
`{0, 1, -1, i, -i}`, so exact integer arithmetic settles its algebra. -/
abbrev GInt := Int × Int

def gadd (a b : GInt) : GInt := (a.1 + b.1, a.2 + b.2)

def gmul (a b : GInt) : GInt := (a.1 * b.1 - a.2 * b.2, a.1 * b.2 + a.2 * b.1)

def gconj (a : GInt) : GInt := (a.1, -a.2)

abbrev Mat8 := Fin 8 → Fin 8 → GInt

/-- `RCCXGate._num_qubits_`. -/
def rccx_num_qubits : Nat := 3

/-- The rows of the array literal returned by `RCCXGate._unitary_`,
entry by entry (`(0,-1)` is `-1j`, `(0,1)` is `1j`). -/
def rccx_rows : List (List GInt) :=
  [[(1,0),(0,0),(0,0),(0,0),(0,0),(0,0),(0,0),(0,0)],
   [(0,0),(1,0),(0,0),(0,0),(0,0),(0,0),(0,0),(0,0)],
   [(0,0),(0,0),(1,0),(0,0),(0,0),(0,0),(0,0),(0,0)],
   [(0,0),(0,0),(0,0),(0,0),(0,0),(0,0),(0,0),(0,-1)],
   [(0,0),(0,0),(0,0),(0,0),(1,0),(0,0),(0,0),(0,0)],
   [(0,0),(0,0),(0,0),(0,0),(0,0),(-1,0),(0,0),(0,0)],
   [(0,0),(0,0),(0,0),(0,0),(0,0),(0,0),(0,0),(1,0)],
   [(0,0),(0,0),(0,0),(0,1),(0,0),(0,0),(1,0),(0,0)]]

/-- The matrix returned by `RCCXGate._unitary_`, as a function of row and
column indices. -/
def rccx_unitary : Mat8 := fun i j => (rccx_rows.getD i.val []).getD j.val (0,0)

/-- Conjugate transpose. -/
def dagger (A : Mat8) : Mat8 := fun i j => gconj (A j i)

/-- 8-by-8 matrix product over the Gaussian integers. -/
def matmul8 (A B : Mat8) : Mat8 := fun i j =>
  ((List.finRange 8).map (fun k => gmul (A i k) (B k j))).foldl gadd (0,0)

/-- The 8-by-8 identity. -/
def identity8 : Mat8 := fun i j => if i = j then (1,0) else (0,0)

/-- The success/failure property every gate/measurement method shares:
on an error the method leaves the circuit untouched, on success it appends
its one operation and returns `r`. -/
def appends_and_returns (c : Circuit) (m : MRes) (r : Ret) : Prop :=
  (∃ e, m = ⟨c, Except.error e⟩) ∨ (∃ op, m = ⟨appendOp c op, Except.ok r⟩)

theorem guarded_cases (c : Circuit) (qs : List Int) (op : Operation) (r : Ret) :
    (∃ e, checkMany c qs = some e ∧ guarded c qs op r = ⟨c, Except.error e⟩) ∨
    (checkMany c qs = none ∧ guarded c qs op r = ⟨appendOp c op, Except.ok r⟩) := by
  cases h : checkMany c qs with
  | some e => exact Or.inl ⟨e, rfl, by simp [guarded, h]⟩
  | none => exact Or.inr ⟨rfl, by simp [guarded, h]⟩

theorem guarded_ar (c : Circuit) (qs : List Int) (op : Operation) (r : Ret) :
    appends_and_returns c (guarded c qs op r) r := by
  rcases guarded_cases c qs op r with ⟨e, _, he⟩ | ⟨_, ho⟩
  · exact Or.inl ⟨e, he⟩
  · exact Or.inr ⟨op, ho⟩

theorem guarded_atomic (c : Circuit) (qs : List Int) (op : Operation) (r : Ret) :
    (∃ e, guarded c qs op r = ⟨c, Except.error e⟩) ∨
    guarded c qs op r =
      ⟨{ c with operations := c.operations ++ [op] }, Except.ok r⟩ := by
  rcases guarded_cases c qs op r with ⟨e, _, he⟩ | ⟨_, ho⟩
  · exact Or.inl ⟨e, he⟩
  · exact Or.inr ho

theorem convert_circuit_isSome (c : Circuit) :
    (convert_circuit c).isSome = true := by
  unfold convert_circuit
  cases hp : c.provider <;> simp [hp]

theorem cac_provider (c : Circuit) (p : Provider) :
    ((check_and_convert c p).1).provider = p := by
  unfold check_and_convert
  by_cases h : c.converted_q_circuit = none ∨ c.provider ≠ p
  · rw [if_pos h]
  · rw [if_neg h]
    exact not_not.mp (not_or.mp h).2

theorem cac_converted_isSome (c : Circuit) (p : Provider) :
    ((check_and_convert c p).1).converted_q_circuit.isSome = true := by
  unfold check_and_convert
  by_cases h : c.converted_q_circuit = none ∨ c.provider ≠ p
  · rw [if_pos h]
    exact convert_circuit_isSome _
  · rw [if_neg h]
    rcases not_or.mp h with ⟨h1, _⟩
    cases hc : c.converted_q_circuit with
    | none => exact absurd hc h1
    | some v => rfl

theorem cac_snd_iff (c : Circuit) (p : Provider) :
    (check_and_convert c p).2 = true ↔
      (c.converted_q_circuit = none ∨ c.provider ≠ p) := by
  unfold check_and_convert
  by_cases h : c.converted_q_circuit = none ∨ c.provider ≠ p
  · rw [if_pos h]
    exact ⟨fun _ => h, fun _ => rfl⟩
  · rw [if_neg h]
    exact ⟨fun hb => absurd hb (by simp), fun hh => absurd hh h⟩

theorem execute_ionq_no_api (c : Circuit) (sim : String) (reps : Int)
    (device : Option String) (target : String) (bucket : Option String)
    (pts pis : Int) (dir : Option String) :
    execute c Provider.ionq sim reps none device target bucket pts pis dir =
      ((check_and_convert c Provider.ionq).1,
        Except.error (QError.apiDetailsNotFound ErrMsg.ionqApiDetailsNotProvided)) := by
  unfold execute
  simp [cac_provider]

theorem execute_ionq_with_api (c : Circuit) (sim : String) (reps : Int)
    (a : Api) (device : Option String) (target : String) (bucket : Option String)
    (pts pis : Int) (dir : Option String) :
    execute c Provider.ionq sim reps (some a) device target bucket pts pis dir =
      ((check_and_convert c Provider.ionq).1,
        Except.ok (some (ExecOutcome.ionq
          ((check_and_convert c Provider.ionq).1).converted_q_circuit target reps
          (some a) ((check_and_convert c Provider.ionq).1).operations))) := by
  unfold execute
  simp [cac_provider, get_operations]

theorem execute_google_eq (c : Circuit) (sim : String) (reps : Int)
    (api : Option Api) (device : Option String) (target : String)
    (bucket : Option String) (pts pis : Int) (dir : Option String) :
    execute c Provider.google sim reps api device target bucket pts pis dir =
      ((check_and_convert c Provider.google).1,
        Except.ok (some (ExecOutcome.cirq
          ((check_and_convert c Provider.google).1).converted_q_circuit sim reps api
          ((check_and_convert c Provider.google).1).operations))) := by
  unfold execute
  simp [cac_provider, get_operations]

theorem execute_amazon_eq (c : Circuit) (sim : String) (reps : Int)
    (api : Option Api) (device : Option String) (target : String)
    (bucket : Option String) (pts pis : Int) (dir : Option String) :
    execute c Provider.amazon sim reps api device target bucket pts pis dir =
      ((check_and_convert c Provider.amazon).1,
        Except.ok (some (ExecOutcome.braket
          ((check_and_convert c Provider.amazon).1).converted_q_circuit sim reps
          device bucket dir pts pis))) := by
  unfold execute
  simp [cac_provider]

theorem execute_microsoft_eq (c : Circuit) (sim : String) (reps : Int)
    (api : Option Api) (device : Option String) (target : String)
    (bucket : Option String) (pts pis : Int) (dir : Option String) :
    execute c Provider.microsoft sim reps api device target bucket pts pis dir =
      ((check_and_convert c Provider.microsoft).1, Except.ok none) := by
  unfold execute
  simp [cac_provider]

/-- Claim C1, evaluated at the failing input `QCircuit(1).cz_gate(0, 5)`:
`cz_gate` checks only its control qubit, so on a 1-qubit circuit the call
with target qubit 5 raises nothing, returns `self`, and appends an operation
referencing index 5, which is outside `[0, 1)` — against the claim that every
out-of-bounds index raises `CircuitError` at append time and that every
accepted operation references only indices in `[0, n)`. -/
theorem c1_cz_gate_appends_out_of_bounds_target :
    (cz_gate (empty_circuit 1) 0 5).out = Except.ok Ret.self ∧
    (cz_gate (empty_circuit 1) 0 5).circ.operations =
      [⟨OpType.cz_gate, OpVal.groups [[0], [5]], none⟩] ∧
    (1 : Int) ≤ 5 := by
  decide

/-- Claim C2: the custom Cirq RCCX gate acts on 3 qubits and its matrix is
8-by-8 of dimension `2 ^ 3`, but the matrix the source returns is NOT
unitary: the conjugate transpose composed with the matrix has entry 2 at
row 7, column 7 (column 7 holds both the `-1j` of row 3 and the `1` of
row 6), so it is not the identity. -/
theorem c2_rccx_matrix_not_unitary :
    rccx_num_qubits = 3 ∧
    (8 : Nat) = 2 ^ rccx_num_qubits ∧
    matmul8 (dagger rccx_unitary) rccx_unitary 7 7 = (2, 0) ∧
    ¬ (∀ i j, matmul8 (dagger rccx_unitary) rccx_unitary i j = identity8 i j) := by
  decide

/-- Claim C3: `check_and_convert p` translates (calls `convert_circuit` and
replaces the cache) exactly when the cached converted circuit is absent or
`p` differs from the stored provider; after one call with `p`, repeated
calls with the same `p` never translate again, even with an operation
appended in between; and a different provider `p'` retranslates. -/
theorem c3_check_and_convert_memoizes :
    ∀ (c : Circuit) (p p' : Provider) (op : Operation),
      ((check_and_convert c p).2 = true ↔
        (c.converted_q_circuit = none ∨ c.provider ≠ p)) ∧
      (check_and_convert (check_and_convert c p).1 p).2 = false ∧
      (check_and_convert (appendOp (check_and_convert c p).1 op) p).2 = false ∧
      (p' ≠ p → (check_and_convert (check_and_convert c p).1 p').2 = true) := by
  intro c p p' op
  have hconv := cac_converted_isSome c p
  have hprov := cac_provider c p
  have hguard : ¬((check_and_convert c p).1.converted_q_circuit = none ∨
      (check_and_convert c p).1.provider ≠ p) := by
    rintro (h | h)
    · rw [h] at hconv
      exact absurd hconv (by simp)
    · exact h hprov
  refine ⟨cac_snd_iff c p, ?_, ?_, ?_⟩
  · cases hb : (check_and_convert (check_and_convert c p).1 p).2 with
    | false => rfl
    | true => exact absurd ((cac_snd_iff _ _).mp hb) hguard
  · cases hb : (check_and_convert (appendOp (check_and_convert c p).1 op) p).2 with
    | false => rfl
    | true =>
      refine absurd ((cac_snd_iff _ _).mp hb) ?_
      simpa [appendOp] using hguard
  · intro hne
    refine (cac_snd_iff _ _).mpr (Or.inr ?_)
    rw [hprov]
    exact fun h => hne h.symm

/-- Witness for C3 at a concrete input: a fresh 2-qubit circuit, first
requested for IBM, then for Google; the inner hypothesis `p' ≠ p` is
discharged by computation. -/
theorem c3_check_and_convert_memoizes_witness :
    ((check_and_convert (empty_circuit 2) Provider.ibm).2 = true ↔
      ((empty_circuit 2).converted_q_circuit = none ∨
        (empty_circuit 2).provider ≠ Provider.ibm)) ∧
    (check_and_convert (check_and_convert (empty_circuit 2) Provider.ibm).1
      Provider.ibm).2 = false ∧
    (check_and_convert (appendOp (check_and_convert (empty_circuit 2) Provider.ibm).1
      ⟨OpType.x_gate, OpVal.flat [0], none⟩) Provider.ibm).2 = false ∧
    (check_and_convert (check_and_convert (empty_circuit 2) Provider.ibm).1
      Provider.google).2 = true := by
  have h := c3_check_and_convert_memoizes (empty_circuit 2) Provider.ibm
    Provider.google ⟨OpType.x_gate, OpVal.flat [0], none⟩
  exact ⟨h.1, h.2.1, h.2.2.1, h.2.2.2 (by decide)⟩

/-- An explicit `compare_results` configuration selecting IonQ with no api
details. -/
def ionq_cfg_no_api : ProviderConfig :=
  ⟨some Provider.ionq, none, none, none, none, none, none, none, none⟩

/-- An explicit `compare_results` configuration selecting Google with every
optional key absent. -/
def google_cfg : ProviderConfig :=
  ⟨some Provider.google, none, none, none, none, none, none, none, none⟩

/-- Counterexample to claim C4 at a concrete input: with the explicit list
`[IonQ without api, Google]`, the IonQ execution failure is not recorded in
the IonQ entry of a returned mapping — `compare_results` aborts with the
exception, and the Google configuration is never executed. -/
theorem c4_counterexample_failure_aborts_comparison :
    (compare_results (empty_circuit 1) (some [ionq_cfg_no_api, google_cfg])
      DEFAULT_REPETITIONS).2 =
      Except.error (QError.apiDetailsNotFound ErrMsg.ionqApiDetailsNotProvided) := by
  decide

/-- Claim C4 as amended: when execution fails for one provider of an explicit
configuration list (here: IonQ with no api details, in head position), the
exception propagates out of `compare_results`, the whole comparison is
aborted, and no mapping is returned for the remaining providers. -/
theorem c4_amended_failure_propagates (c : Circuit) (cfg : ProviderConfig)
    (rest : List ProviderConfig) (reps : Int)
    (hp : cfg.provider = some Provider.ionq) (ha : cfg.api = none) :
    (compare_results c (some (cfg :: rest)) reps).2 =
      Except.error (QError.apiDetailsNotFound ErrMsg.ionqApiDetailsNotProvided) := by
  unfold compare_results compare_go
  rw [hp]
  simp only [ha, execute_ionq_no_api]

/-- Witness for C4 as amended, at a concrete input. -/
theorem c4_amended_failure_propagates_witness :
    (compare_results (empty_circuit 1) (some [ionq_cfg_no_api, google_cfg]) 5).2 =
      Except.error (QError.apiDetailsNotFound ErrMsg.ionqApiDetailsNotProvided) :=
  c4_amended_failure_propagates (empty_circuit 1) ionq_cfg_no_api [google_cfg] 5
    rfl rfl

/-- Claim C5: on the IonQ path, `execute` raises `APIDetailsNotFoundError`
naming the missing api details exactly when `api` is `None` — the error value
carries no executor invocation, so nothing was executed — and with an api
supplied the call goes through to the IonQ executor. -/
theorem c5_ionq_execute_requires_api :
    ∀ (c : Circuit) (sim : String) (reps : Int) (api : Option Api)
      (device : Option String) (target : String) (bucket : Option String)
      (pts pis : Int) (dir : Option String),
      ((execute c Provider.ionq sim reps api device target bucket pts pis dir).2 =
        Except.error (QError.apiDetailsNotFound ErrMsg.ionqApiDetailsNotProvided) ↔
        api = none) ∧
      (∀ a, api = some a →
        (execute c Provider.ionq sim reps api device target bucket pts pis dir).2 =
          Except.ok (some (ExecOutcome.ionq
            ((check_and_convert c Provider.ionq).1).converted_q_circuit target reps
            (some a) ((check_and_convert c Provider.ionq).1).operations))) := by
  intro c sim reps api device target bucket pts pis dir
  constructor
  · constructor
    · intro h
      cases api with
      | none => rfl
      | some a =>
        rw [execute_ionq_with_api] at h
        exact absurd h (by simp)
    · intro h
      rw [h, execute_ionq_no_api]
  · intro a ha
    rw [ha, execute_ionq_with_api]

/-- Witness for C5 at concrete inputs: with `api = None` the call errors,
with an api string supplied it reaches the IonQ executor. -/
theorem c5_ionq_execute_requires_api_witness :
    (execute (empty_circuit 1) Provider.ionq "sim" 10 none none "simulator" none
      100 10 none).2 =
      Except.error (QError.apiDetailsNotFound ErrMsg.ionqApiDetailsNotProvided) ∧
    (execute (empty_circuit 1) Provider.ionq "sim" 10 (some "key") none "simulator"
      none 100 10 none).2 =
      Except.ok (some (ExecOutcome.ionq
        ((check_and_convert (empty_circuit 1) Provider.ionq).1).converted_q_circuit
        "simulator" 10 (some "key")
        ((check_and_convert (empty_circuit 1) Provider.ionq).1).operations)) := by
  constructor
  · exact (c5_ionq_execute_requires_api (empty_circuit 1) "sim" 10 none none
      "simulator" none 100 10 none).1.mpr rfl
  · exact (c5_ionq_execute_requires_api (empty_circuit 1) "sim" 10 (some "key") none
      "simulator" none 100 10 none).2 "key" rfl

/-- Counterexample to claim C6 at a concrete input: `measure(0)` on a fresh
1-qubit circuit appends its operation but returns Python's `None`, not the
circuit object, so not every gate-building and measurement method returns
the circuit. -/
theorem c6_counterexample_measure_returns_no_circuit :
    measure (empty_circuit 1) 0 =
      ⟨⟨1, [⟨OpType.measure, OpVal.flat [0], none⟩], none, DEFAULT_PROVIDER⟩,
        Except.ok Ret.none⟩ ∧
    Ret.none ≠ Ret.self := by
  decide

/-- Claim C6 as amended: every gate-building method of `QCircuit` appends its
operation and returns the circuit object itself (`Ret.self`), enabling
chained building — but `measure(qubit)` and `measure_all()` append their
operations and return `None` (`Ret.none`), so they cannot be chained. -/
theorem c6_amended_gates_chain_measure_does_not :
    (∀ c q, appends_and_returns c (x_gate c q) Ret.self) ∧
    (∀ c q, appends_and_returns c (y_gate c q) Ret.self) ∧
    (∀ c q, appends_and_returns c (z_gate c q) Ret.self) ∧
    (∀ c q, appends_and_returns c (h_gate c q) Ret.self) ∧
    (∀ c q1 q2, appends_and_returns c (cx_gate c q1 q2) Ret.self) ∧
    (∀ c q1 q2, appends_and_returns c (cz_gate c q1 q2) Ret.self) ∧
    (∀ c q1 q2 q3, appends_and_returns c (ccx_gate c q1 q2 q3) Ret.self) ∧
    (∀ c t q, appends_and_returns c (ry_gate c t q) Ret.self) ∧
    (∀ c t q1 q2, appends_and_returns c (ryy_gate c t q1 q2) Ret.self) ∧
    (∀ c t q1 q2, appends_and_returns c (rzz_gate c t q1 q2) Ret.self) ∧
    (∀ c t q1 q2, appends_and_returns c (rzx_gate c t q1 q2) Ret.self) ∧
    (∀ c t q, appends_and_returns c (rz_gate c t q) Ret.self) ∧
    (∀ c q, appends_and_returns c (s_gate c q) Ret.self) ∧
    (∀ c q, appends_and_returns c (sdg_gate c q) Ret.self) ∧
    (∀ c q1 q2, appends_and_returns c (swap_gate c q1 q2) Ret.self) ∧
    (∀ c q1 q2, appends_and_returns c (iswap_gate c q1 q2) Ret.self) ∧
    (∀ c q, appends_and_returns c (sx_gate c q) Ret.self) ∧
    (∀ c q, appends_and_returns c (sxd_gate c q) Ret.self) ∧
    (∀ c q, appends_and_returns c (t_gate c q) Ret.self) ∧
    (∀ c q, appends_and_returns c (td_gate c q) Ret.self) ∧
    (∀ c t p l q, appends_and_returns c (u_gate c t p l q) Ret.self) ∧
    (∀ c t q, appends_and_returns c (u1_gate c t q) Ret.self) ∧
    (∀ c p l q, appends_and_returns c (u2_gate c p l q) Ret.self) ∧
    (∀ c t p l q, appends_and_returns c (u3_gate c t p l q) Ret.self) ∧
    (∀ c q1 q2, appends_and_returns c (cy_gate c q1 q2) Ret.self) ∧
    (∀ c q, appends_and_returns c (i_gate c q) Ret.self) ∧
    (∀ c q1 q2 q3, appends_and_returns c (rccx_gate c q1 q2 q3) Ret.self) ∧
    (∀ c q1 q2 q3 q4, appends_and_returns c (rc3x_gate c q1 q2 q3 q4) Ret.self) ∧
    (∀ c t q1 q2, appends_and_returns c (rxx_gate c t q1 q2) Ret.self) ∧
    (∀ c t q, appends_and_returns c (rx_gate c t q) Ret.self) ∧
    (∀ c t p q, appends_and_returns c (r_gate c t p q) Ret.self) ∧
    (∀ c t q, appends_and_returns c (p_gate c t q) Ret.self) ∧
    (∀ c q1 q2 q3 q4, appends_and_returns c (c3x_gate c q1 q2 q3 q4) Ret.self) ∧
    (∀ c q1 q2 q3 q4, appends_and_returns c (c3sx_gate c q1 q2 q3 q4) Ret.self) ∧
    (∀ c q1 q2 q3 q4 q5, appends_and_returns c (c4x_gate c q1 q2 q3 q4 q5) Ret.self) ∧
    (∀ c q1 q2, appends_and_returns c (dcx_gate c q1 q2) Ret.self) ∧
    (∀ c q1 q2, appends_and_returns c (ch_gate c q1 q2) Ret.self) ∧
    (∀ c q1 q2, appends_and_returns c (csx_gate c q1 q2) Ret.self) ∧
    (∀ c q1 q2 q3, appends_and_returns c (cswap_gate c q1 q2 q3) Ret.self) ∧
    (∀ c t q1 q2, appends_and_returns c (cphase_gate c t q1 q2) Ret.self) ∧
    (∀ c t q1 q2, appends_and_returns c (crx_gate c t q1 q2) Ret.self) ∧
    (∀ c t q1 q2, appends_and_returns c (cry_gate c t q1 q2) Ret.self) ∧
    (∀ c t q1 q2, appends_and_returns c (crz_gate c t q1 q2) Ret.self) ∧
    (∀ c t p l g q1 q2, appends_and_returns c (cu_gate c t p l g q1 q2) Ret.self) ∧
    (∀ c t q1 q2, appends_and_returns c (cu1_gate c t q1 q2) Ret.self) ∧
    (∀ c t p l q1 q2, appends_and_returns c (cu3_gate c t p l q1 q2) Ret.self) ∧
    (∀ c cs t anc m, appends_and_returns c (mcx_gate c cs t anc m) Ret.self) ∧
    (∀ c cs t, appends_and_returns c (mcxgc_gate c cs t) Ret.self) ∧
    (∀ c cs t d, appends_and_returns c (mcxvchain_gate c cs t d) Ret.self) ∧
    (∀ c cs t, appends_and_returns c (mcxrec_gate c cs t) Ret.self) ∧
    (∀ c l cs t, appends_and_returns c (mcp_gate c l cs t) Ret.self) ∧
    (∀ c cs t anc m, appends_and_returns c (mct_gate c cs t anc m) Ret.self) ∧
    (∀ c q, appends_and_returns c (measure c q) Ret.none) ∧
    (∀ c, appends_and_returns c (measure_all c) Ret.none) := by
  refine ⟨fun c q => guarded_ar c _ _ _, fun c q => guarded_ar c _ _ _,
    fun c q => guarded_ar c _ _ _, fun c q => guarded_ar c _ _ _,
    fun c q1 q2 => guarded_ar c _ _ _, fun c q1 q2 => guarded_ar c _ _ _,
    fun c q1 q2 q3 => guarded_ar c _ _ _, fun c t q => guarded_ar c _ _ _,
    fun c t q1 q2 => guarded_ar c _ _ _, fun c t q1 q2 => guarded_ar c _ _ _,
    fun c t q1 q2 => guarded_ar c _ _ _, fun c t q => guarded_ar c _ _ _,
    fun c q => guarded_ar c _ _ _, fun c q => guarded_ar c _ _ _,
    fun c q1 q2 => guarded_ar c _ _ _, fun c q1 q2 => guarded_ar c _ _ _,
    fun c q => guarded_ar c _ _ _, fun c q => guarded_ar c _ _ _,
    fun c q => guarded_ar c _ _ _, fun c q => guarded_ar c _ _ _,
    fun c t p l q => guarded_ar c _ _ _, fun c t q => guarded_ar c _ _ _,
    fun c p l q => guarded_ar c _ _ _, fun c t p l q => guarded_ar c _ _ _,
    fun c q1 q2 => guarded_ar c _ _ _, fun c q => guarded_ar c _ _ _,
    fun c q1 q2 q3 => guarded_ar c _ _ _, fun c q1 q2 q3 q4 => guarded_ar c _ _ _,
    fun c t q1 q2 => guarded_ar c _ _ _, fun c t q => guarded_ar c _ _ _,
    fun c t p q => guarded_ar c _ _ _, fun c t q => guarded_ar c _ _ _,
    fun c q1 q2 q3 q4 => guarded_ar c _ _ _,
    fun c q1 q2 q3 q4 => guarded_ar c _ _ _,
    fun c q1 q2 q3 q4 q5 => guarded_ar c _ _ _,
    fun c q1 q2 => guarded_ar c _ _ _, fun c q1 q2 => guarded_ar c _ _ _,
    fun c q1 q2 => guarded_ar c _ _ _, fun c q1 q2 q3 => guarded_ar c _ _ _,
    fun c t q1 q2 => guarded_ar c _ _ _, fun c t q1 q2 => guarded_ar c _ _ _,
    fun c t q1 q2 => guarded_ar c _ _ _, fun c t q1 q2 => guarded_ar c _ _ _,
    fun c t p l g q1 q2 => guarded_ar c _ _ _, fun c t q1 q2 => guarded_ar c _ _ _,
    fun c t p l q1 q2 => guarded_ar c _ _ _,
    fun c cs t anc m => guarded_ar c _ _ _, fun c cs t => guarded_ar c _ _ _,
    fun c cs t d => guarded_ar c _ _ _, fun c cs t => guarded_ar c _ _ _,
    fun c l cs t => guarded_ar c _ _ _, fun c cs t anc m => guarded_ar c _ _ _,
    fun c q => guarded_ar c _ _ _,
    fun c => Or.inr ⟨⟨OpType.measure_all, OpVal.sentinel, none⟩, rfl⟩⟩

/-- Counterexample to claim C7 at a concrete input: two `mcx_gate` calls on a
fresh 3-qubit circuit that differ only in their `mode` argument produce
identical results, so the appended operation does not carry the mode. -/
theorem c7_counterexample_mcx_mode_not_recorded :
    mcx_gate (empty_circuit 3) [0] 1 [] "nonancilla" =
      mcx_gate (empty_circuit 3) [0] 1 [] "some-other-mode" ∧
    ("nonancilla" : String) ≠ "some-other-mode" := by
  decide

/-- Claim C7 as amended: `mcx_gate`'s appended operation carries the control
qubits, then the target, then the full `ancilla_qubits` list, with
`PARAMS = [len(control_qubits)]` — its `mode` argument is discarded (the
conclusion below does not depend on `mode`) — and `mcxvchain_gate`'s
appended operation carries its `dirty_ancilla` argument unmodified in its
parameter list. -/
theorem c7_amended_ancillas_propagated_mode_dropped :
    (∀ (c : Circuit) (controls : List Int) (target : Int) (ancillas : List Int)
        (mode : String),
      checkMany c (target :: controls) = none →
      (mcx_gate c controls target ancillas mode).circ.operations =
        c.operations ++ [⟨OpType.mcx_gate,
          OpVal.flat (controls ++ [target] ++ ancillas),
          some [PVal.num controls.length]⟩] ∧
      (mcx_gate c controls target ancillas mode).out = Except.ok Ret.self) ∧
    (∀ (c : Circuit) (controls : List Int) (target : Int) (dirty_ancilla : Bool),
      checkMany c (target :: controls) = none →
      (mcxvchain_gate c controls target dirty_ancilla).circ.operations =
        c.operations ++ [⟨OpType.mcxvchain_gate, OpVal.flat (controls ++ [target]),
          some [PVal.num controls.length, PVal.dirty dirty_ancilla]⟩] ∧
      (mcxvchain_gate c controls target dirty_ancilla).out =
        Except.ok Ret.self) := by
  constructor
  · intro c controls target ancillas mode h
    unfold mcx_gate guarded
    rw [h]
    exact ⟨rfl, rfl⟩
  · intro c controls target dirty_ancilla h
    unfold mcxvchain_gate guarded
    rw [h]
    exact ⟨rfl, rfl⟩

/-- Witness for C7 as amended, at a concrete input. -/
theorem c7_amended_ancillas_propagated_mode_dropped_witness :
    ((mcx_gate (empty_circuit 4) [0, 1] 2 [3] "anymode").circ.operations =
      [] ++ [⟨OpType.mcx_gate, OpVal.flat ([0, 1] ++ [2] ++ [3]),
        some [PVal.num 2]⟩] ∧
      (mcx_gate (empty_circuit 4) [0, 1] 2 [3] "anymode").out =
        Except.ok Ret.self) ∧
    ((mcxvchain_gate (empty_circuit 4) [0, 1] 2 true).circ.operations =
      [] ++ [⟨OpType.mcxvchain_gate, OpVal.flat ([0, 1] ++ [2]),
        some [PVal.num 2, PVal.dirty true]⟩] ∧
      (mcxvchain_gate (empty_circuit 4) [0, 1] 2 true).out =
        Except.ok Ret.self) :=
  ⟨(c7_amended_ancillas_propagated_mode_dropped).1 (empty_circuit 4) [0, 1] 2 [3]
      "anymode" (by decide),
    (c7_amended_ancillas_propagated_mode_dropped).2 (empty_circuit 4) [0, 1] 2 true
      (by decide)⟩

/-- A `compare_results` configuration record with no entry at all — in
particular, no `provider` key. -/
def cfg_without_provider_key : ProviderConfig :=
  ⟨none, none, none, none, none, none, none, none, none⟩

/-- Counterexample to claim C8 at a concrete input: a configuration record
without the backend-selector key is not defaulted; `provider_json['provider']`
raises `KeyError` and the comparison returns no mapping. -/
theorem c8_counterexample_provider_key_not_defaulted :
    (compare_results (empty_circuit 1) (some [cfg_without_provider_key])
      DEFAULT_REPETITIONS).2 = Except.error (QError.keyError "provider") := by
  decide

/-- Claim C8 as amended: for an explicit configuration list, every recognized
key EXCEPT the mandatory provider selector is independently defaulted when
absent (api, device, bucket, directory to none; simulator and repetitions to
the library defaults; poll timeout to 100 and poll interval to 10 seconds),
and the returned mapping maps each record's provider to the result of
executing the circuit with that record's settings — shown on the Google path
(simulator, repetitions, api) and the Amazon path (device, bucket,
directory, poll timeout, poll interval). -/
theorem c8_amended_keys_defaulted_except_provider :
    (∀ (c : Circuit) (cfg : ProviderConfig) (reps : Int),
      cfg.provider = some Provider.google →
      (compare_results c (some [cfg]) reps).2 =
        Except.ok [(Provider.google,
          some (ExecOutcome.cirq
            ((check_and_convert c Provider.google).1).converted_q_circuit
            (cfg.simulator.getD DEFAULT_SIMULATOR)
            (cfg.repetitions.getD DEFAULT_REPETITIONS)
            cfg.api
            ((check_and_convert c Provider.google).1).operations))]) ∧
    (∀ (c : Circuit) (cfg : ProviderConfig) (reps : Int),
      cfg.provider = some Provider.amazon →
      (compare_results c (some [cfg]) reps).2 =
        Except.ok [(Provider.amazon,
          some (ExecOutcome.braket
            ((check_and_convert c Provider.amazon).1).converted_q_circuit
            (cfg.simulator.getD DEFAULT_SIMULATOR)
            (cfg.repetitions.getD DEFAULT_REPETITIONS)
            cfg.device cfg.bucket cfg.directory
            (cfg.poll_timeout_seconds.getD 100)
            (cfg.poll_interval_seconds.getD 10)))]) := by
  constructor
  · intro c cfg reps hp
    unfold compare_results compare_go
    rw [hp]
    simp only [execute_google_eq]
    rfl
  · intro c cfg reps hp
    unfold compare_results compare_go
    rw [hp]
    simp only [execute_amazon_eq]
    rfl

/-- Witness for C8 as amended, at a concrete input: a Google record with an
explicit simulator and absent repetitions, and an Amazon record with an
explicit bucket and absent polling settings. -/
theorem c8_amended_keys_defaulted_except_provider_witness :
    ((compare_results (empty_circuit 1)
      (some [⟨some Provider.google, none, none, none, none, some "my-sim", none,
        none, none⟩]) 7).2 =
      Except.ok [(Provider.google,
        some (ExecOutcome.cirq
          ((check_and_convert (empty_circuit 1) Provider.google).1).converted_q_circuit
          ((some "my-sim").getD DEFAULT_SIMULATOR)
          ((none : Option Int).getD DEFAULT_REPETITIONS)
          none
          ((check_and_convert (empty_circuit 1) Provider.google).1).operations))]) ∧
    ((compare_results (empty_circuit 1)
      (some [⟨some Provider.amazon, none, none, some "bkt", none, none, none,
        none, none⟩]) 7).2 =
      Except.ok [(Provider.amazon,
        some (ExecOutcome.braket
          ((check_and_convert (empty_circuit 1) Provider.amazon).1).converted_q_circuit
          ((none : Option String).getD DEFAULT_SIMULATOR)
          ((none : Option Int).getD DEFAULT_REPETITIONS)
          none (some "bkt") none
          ((none : Option Int).getD 100)
          ((none : Option Int).getD 10)))]) :=
  ⟨(c8_amended_keys_defaulted_except_provider).1 (empty_circuit 1)
      ⟨some Provider.google, none, none, none, none, some "my-sim", none, none,
        none⟩ 7 rfl,
    (c8_amended_keys_defaulted_except_provider).2 (empty_circuit 1)
      ⟨some Provider.amazon, none, none, some "bkt", none, none, none, none,
        none⟩ 7 rfl⟩

/-- Claim C9: for the Microsoft provider — for which the circuit is
translated (the cache holds a converted circuit after `check_and_convert`,
so it can be drawn) — `execute` matches no dispatch branch and returns
Python's implicit `None`: no counts mapping and no error. -/
theorem c9_microsoft_execute_returns_none (c : Circuit) (sim : String)
    (reps : Int) (api : Option Api) (device : Option String) (target : String)
    (bucket : Option String) (pts pis : Int) (dir : Option String) :
    ((check_and_convert c Provider.microsoft).1).converted_q_circuit.isSome = true ∧
    (draw_circuit c Provider.microsoft).converted_q_circuit.isSome = true ∧
    (execute c Provider.microsoft sim reps api device target bucket pts pis dir).2 =
      Except.ok none :=
  ⟨cac_converted_isSome c Provider.microsoft,
    cac_converted_isSome c Provider.microsoft,
    by rw [execute_microsoft_eq]⟩

/-- Claim C10: gate appends are atomic.  In every gate-building method the
boundary checks all run before the single append (the shared shape
`guarded`), so when a call raises, the circuit — operation log and cached
converted circuit — is exactly the input circuit, and on success exactly one
operation is appended at the end, everything else unchanged; instantiated
explicitly for `ccx_gate` and `mcx_gate`. -/
theorem c10_gate_appends_are_atomic :
    (∀ (c : Circuit) (qs : List Int) (op : Operation) (r : Ret),
      (∃ e, guarded c qs op r = ⟨c, Except.error e⟩) ∨
      guarded c qs op r =
        ⟨{ c with operations := c.operations ++ [op] }, Except.ok r⟩) ∧
    (∀ (c : Circuit) (q1 q2 q3 : Int),
      (∃ e, ccx_gate c q1 q2 q3 = ⟨c, Except.error e⟩) ∨
      ccx_gate c q1 q2 q3 =
        ⟨{ c with operations := c.operations ++
            [⟨OpType.ccx_gate, OpVal.groups [[q1], [q2], [q3]], none⟩] },
          Except.ok Ret.self⟩) ∧
    (∀ (c : Circuit) (controls : List Int) (target : Int) (anc : List Int)
        (mode : String),
      (∃ e, mcx_gate c controls target anc mode = ⟨c, Except.error e⟩) ∨
      mcx_gate c controls target anc mode =
        ⟨{ c with operations := c.operations ++ [⟨OpType.mcx_gate,
            OpVal.flat (controls ++ [target] ++ anc),
            some [PVal.num controls.length]⟩] }, Except.ok Ret.self⟩) :=
  ⟨guarded_atomic,
    fun c q1 q2 q3 => guarded_atomic c _ _ _,
    fun c controls target anc mode => guarded_atomic c _ _ _⟩

end QC
